import Mathlib

/-!
Shallow embedding of the simple-rpc dispatch core (src/src/rpc-error.ts:
`RPCError`, `Procedure`, `Router`) and of the error-serialization step of
the HTTP transport boundary (`startRpcServer` in the unnamed server file).

Modelling decisions, each noted again at the definition it concerns:
* JavaScript values flowing through a call (contexts, inputs, outputs,
  error payloads) are modelled by the small inductive `Value`.
* A zod schema is modelled by its observable behaviour: a parse function
  `Value → Except String Value` (a validation failure carries a message and
  is a kind distinct from `RPCError`).
* A middleware is an arbitrary function in the source.  The claims under
  study only concern middleware that behaves well (calls `next` at most
  once); such a middleware is modelled by its observable behaviour: it
  either calls `next` once and returns its result (`callNext`), returns a
  value without calling `next` (`shortCircuit`), or throws an `RPCError`
  before calling `next` (`raiseErr`).
* Each invocation of a middleware or of the handler is recorded in a trace,
  together with the input value it was given, so that "invoked exactly
  once, in this order, with this input" is a statement about the trace.
* `Router.call` mutates the route tree in the source (it writes merged
  middleware lists back into child nodes).  The embedding passes state
  explicitly: the call returns the updated tree next to its result.
* The `ResponseLike` sink is threaded opaquely by the source and never
  inspected by the dispatch core; it is not modelled.
-/

inductive Value where
  | str (s : String)
  | num (n : Nat)
  | null
deriving DecidableEq, Repr

/-- Tagged error type of the core, from class `RPCError` in rpc-error.ts:
a numeric `code`, a `message` and an optional `payload`. -/
structure RPCError where
  code : Nat
  message : String
  payload : Option Value
deriving DecidableEq, Repr

/-- Failures that can escape a dispatch call: either the core's tagged
error type, or a schema validation failure (a distinct kind, raised by the
zod `parse` calls and never converted by the core). -/
inductive Err where
  | rpc (e : RPCError)
  | validation (msg : String)
deriving DecidableEq, Repr

/-- Observable behaviour of a well-behaved middleware `(ctx, input, res,
next) => result` (one that invokes `next` at most once): pass through to
`next`, short-circuit with an own return value, or throw an `RPCError`
before calling `next`. -/
inductive MiddlewareBeh where
  | callNext
  | shortCircuit (v : Value)
  | raiseErr (e : RPCError)
deriving DecidableEq, Repr

/-- A middleware, named so that its invocations can be identified in the
trace of a call. -/
structure Middleware where
  name : String
  beh : MiddlewareBeh
deriving DecidableEq, Repr

/-- One recorded invocation during a call: a middleware (identified by
name) or the handler, together with the input value it received. -/
inductive TraceEntry where
  | mw (name : String) (input : Value)
  | handler (input : Value)
deriving DecidableEq, Repr

/-- Projection of a trace to the names of the invoked entries (the handler
shown as "handler"). -/
def traceNames (tr : List TraceEntry) : List String :=
  tr.map fun e =>
    match e with
    | .mw n _ => n
    | .handler _ => "handler"

/-- Leaf endpoint, from class `Procedure` in the source: input schema,
output schema, handler and own middleware list.  Schemas are modelled by
their parse functions; the handler takes the context and the parsed input
(the `res` sink is not modelled) and may return a value or throw. -/
structure Procedure where
  inputSchema : Value → Except String Value
  outputSchema : Value → Except String Value
  handler : Value → Value → Except Err Value
  middlewares : List Middleware

/-- Execution of the composed middleware chain built by `reduceRight` in
`Procedure.call`: the outermost middleware runs first; its `next` runs the
chain of the remaining middlewares, whose innermost `next` is `base`
(handler invocation).  Returns the chain's result and the trace of the
invocations that actually happened, outermost first. -/
def runChain : List Middleware → Value → Value →
    Except Err Value × List TraceEntry → Except Err Value × List TraceEntry
  | [], _, _, base => base
  | m :: rest, ctx, input, base =>
    match m.beh with
    | .callNext =>
      let r := runChain rest ctx input base
      (r.1, TraceEntry.mw m.name input :: r.2)
    | .shortCircuit v => (Except.ok v, [TraceEntry.mw m.name input])
    | .raiseErr e => (Except.error (Err.rpc e), [TraceEntry.mw m.name input])

/-- Validation/execution pipeline of `Procedure.call(ctx, input, res)`:
parse the input through the input schema, run the middleware chain whose
innermost `next` invokes the handler with the parsed input, then parse the
chain's result through the output schema.  Any failure propagates
unchanged.  Returns the result next to the trace of invocations. -/
def Procedure.call (p : Procedure) (ctx : Value) (input : Value) :
    Except Err Value × List TraceEntry :=
  match p.inputSchema input with
  | .error e => (Except.error (Err.validation e), [])
  | .ok parsedInput =>
    let r := runChain p.middlewares ctx parsedInput
      (p.handler ctx parsedInput, [TraceEntry.handler parsedInput])
    match r.1 with
    | .error e => (Except.error e, r.2)
    | .ok v =>
      match p.outputSchema v with
      | .error e => (Except.error (Err.validation e), r.2)
      | .ok out => (Except.ok out, r.2)

/-- A child of a router: a `Procedure` leaf or a nested router (its own
middleware list and route mapping).  The source discriminates children with
`instanceof`; values that are neither (the `Invalid route` branch) cannot
be constructed in this model. -/
inductive Node where
  | proc (p : Procedure)
  | router (middlewares : List Middleware) (routes : List (String × Node))

/-- Lookup `this.routes[first]`, `none` standing for a falsy/undefined
lookup result.  JavaScript object keys are unique; with duplicate keys in
the association list the first occurrence is authoritative. -/
def lookupRoute : List (String × Node) → String → Option Node
  | [], _ => none
  | (k, v) :: t, s => if k = s then some v else lookupRoute t s

/-- In-place overwrite of the child stored under a key, used to model the
source's mutation of `target.middlewares` through the routes mapping. -/
def updateRoute : List (String × Node) → String → Node → List (String × Node)
  | [], _, _ => []
  | (k, v) :: t, s, n => if k = s then (k, n) :: t else (k, v) :: updateRoute t s n

/-- Single-quote character, as it appears in the source's error messages. -/
def quoteChar : String := "\x27"

/-- Message of the 404 error: `Route (.......) not found` with the joined
residual path in single quotes, as thrown by `Router.call`. -/
def notFoundMsg (parts : List String) : String :=
  "Route " ++ quoteChar ++ String.intercalate "." parts ++ quoteChar ++ " not found"

/-- Message of the 400 error thrown when a procedure is matched with
residual segments remaining. -/
def notCallableMsg (parts : List String) : String :=
  "Route " ++ quoteChar ++ String.intercalate "." parts ++ quoteChar ++ " is not callable"

/-- Recursive body of `Router.call(ctx, path, input, res)`, with the
current router's stored middleware list and routes passed explicitly and
returned updated (the source mutates them through object references):

* `[first, ...rest] = parts`; a missing route throws the 404 error;
* a matched `Procedure` with residual segments throws the 400 error;
* a matched `Procedure` with no residual segments has the merged list
  `[...this.middlewares, ...target.middlewares]` written back into its
  stored `middlewares` (the source's assignment) and is then called;
* a matched router has `this.middlewares` unshifted into its stored
  `middlewares` and is then called on `rest`.

For empty `parts` the source destructures `first = undefined` and looks up
`this.routes[undefined]`, i.e. the literal key "undefined"; for trees
without a route literally named "undefined" (the only trees considered
here) that lookup fails and the 404 error with the empty joined path is
thrown, which is what this model returns directly. -/
def routerCall : List Middleware → List (String × Node) → Value → List String → Value →
    Except Err Value × List (String × Node) × List TraceEntry
  | _, routes, _, [], _ =>
    (Except.error (Err.rpc ⟨404, notFoundMsg [], none⟩), routes, [])
  | mws, routes, ctx, first :: rest, input =>
    match lookupRoute routes first with
    | none => (Except.error (Err.rpc ⟨404, notFoundMsg (first :: rest), none⟩), routes, [])
    | some (Node.proc p) =>
      if rest.length > 0 then
        (Except.error (Err.rpc ⟨400, notCallableMsg (first :: rest), none⟩), routes, [])
      else
        let p2 : Procedure := { p with middlewares := mws ++ p.middlewares }
        let r := p2.call ctx input
        (r.1, updateRoute routes first (Node.proc p2), r.2)
    | some (Node.router cmws croutes) =>
      let cmws2 := mws ++ cmws
      let r := routerCall cmws2 croutes ctx rest input
      (r.1, updateRoute routes first (Node.router cmws2 r.2.1), r.2.2)

/-- Internal routing node, from class `Router` in the source: a route
mapping and an own middleware list (initially empty, grown by `use`). -/
structure Router where
  middlewares : List Middleware
  routes : List (String × Node)

/-- Constructor function `createRouter(routes)`: a router with the given
routes and an empty middleware list. -/
def createRouter (routes : List (String × Node)) : Router :=
  ⟨[], routes⟩

/-- Registration `use(mw)`: appends to the router's own middleware list. -/
def Router.use (r : Router) (m : Middleware) : Router :=
  { r with middlewares := r.middlewares ++ [m] }

/-- Dispatch `Router.call(ctx, path, input, res)` with the path already
split into segments.  Returns the result, the router as it stands after
the call (the source mutates stored middleware lists of child nodes
through the shared tree), and the trace of middleware/handler
invocations. -/
def Router.call (r : Router) (ctx : Value) (parts : List String) (input : Value) :
    Except Err Value × Router × List TraceEntry :=
  let res := routerCall r.middlewares r.routes ctx parts input
  (res.1, ⟨r.middlewares, res.2.1⟩, res.2.2)

/-- Split of a string path on ".", as done by `path.split(".")` in the
source.  JavaScript string split with a one-character separator agrees
with splitting the character list on that character; in particular the
empty string becomes the single empty segment. -/
def splitPath (path : String) : List String :=
  (path.toList.splitOn (Char.ofNat 46)).map List.asString

/-- Dispatch with a string path: the source splits it on "." and proceeds
as with a pre-split segment list. -/
def Router.callPath (r : Router) (ctx : Value) (path : String) (input : Value) :
    Except Err Value × Router × List TraceEntry :=
  r.call ctx (splitPath path) input

/-- Names of the middlewares stored on the `Procedure` found under a
route key, used to observe mutation of a stored list across calls. -/
def procMwNamesAt (r : Router) (seg : String) : Option (List String) :=
  match lookupRoute r.routes seg with
  | some (Node.proc p) => some (p.middlewares.map Middleware.name)
  | _ => none

/-- Serialized error body `{ code, message, payload }` written by the
transport on failure (`payload` is `httpErr.payload ?? null`). -/
structure ErrorBody where
  code : Nat
  message : String
  payload : Value
deriving DecidableEq, Repr

/-- Error coercion of the transport boundary in `startRpcServer`:
`err instanceof RPCError ? err : new RPCError(500, "Internal server
error")`.  A validation failure is not an instance of the tagged type and
is therefore replaced. -/
def toHttpError : Err → RPCError
  | .rpc e => e
  | .validation _ => ⟨500, "Internal server error", none⟩

/-- Serialization of a dispatch failure at the transport boundary. -/
def serializeError (e : Err) : ErrorBody :=
  let h := toHttpError e
  ⟨h.code, h.message, h.payload.getD Value.null⟩

/-- Body written by the transport: `{ result }` on success, `{ error:
{ code, message, payload } }` on failure. -/
inductive RpcResponse where
  | result (v : Value)
  | error (b : ErrorBody)
deriving DecidableEq, Repr

/-- Outcome serialization of `startRpcServer`'s request handler around the
`router.call` invocation. -/
def serializeOutcome : Except Err Value → RpcResponse
  | .ok v => RpcResponse.result v
  | .error e => RpcResponse.error (serializeError e)

/-! Concrete routers and procedures used to evaluate the dispatcher on
specific inputs. -/

/-- Schema that accepts every value unchanged. -/
def idSchema : Value → Except String Value := fun v => Except.ok v

/-- Schema that coerces a number by incrementing it and rejects everything
else, used to observe that the parsed value, not the raw one, flows
downstream. -/
def incSchema : Value → Except String Value := fun v =>
  match v with
  | Value.num n => Except.ok (Value.num (n + 1))
  | _ => Except.error "expected a number"

/-- Pass-through middleware named "A". -/
def mwA : Middleware := ⟨"A", MiddlewareBeh.callNext⟩

/-- Pass-through middleware named "B". -/
def mwB : Middleware := ⟨"B", MiddlewareBeh.callNext⟩

/-- Pass-through middleware named "C". -/
def mwC : Middleware := ⟨"C", MiddlewareBeh.callNext⟩

/-- Procedure echoing its parsed input, with no own middleware. -/
def echoProc : Procedure := ⟨idSchema, idSchema, fun _ i => Except.ok i, []⟩

/-- Router with one middleware "A" and the single route "p" to
`echoProc`. -/
def c1Router : Router := ⟨[mwA], [("p", Node.proc echoProc)]⟩

/-- Procedure echoing its parsed input, with own middleware "C". -/
def nestedProc : Procedure := ⟨idSchema, idSchema, fun _ i => Except.ok i, [mwC]⟩

/-- Two-level router: middleware "A" at the root, route "sub" to a nested
router with middleware "B", whose route "p" is `nestedProc`. -/
def nestedRouter : Router :=
  ⟨[mwA], [("sub", Node.router [mwB] [("p", Node.proc nestedProc)])]⟩

/-! General lemmas about the middleware chain. -/

/-- Running the chain below a block of pass-through middleware records
those middleware outermost-first, each with the chain input, and returns
the inner chain's result. -/
theorem runChain_pre (pre rest : List Middleware) (ctx input : Value)
    (base : Except Err Value × List TraceEntry)
    (hpre : ∀ m ∈ pre, m.beh = MiddlewareBeh.callNext) :
    runChain (pre ++ rest) ctx input base =
      ((runChain rest ctx input base).1,
        pre.map (fun m => TraceEntry.mw m.name input) ++ (runChain rest ctx input base).2) := by
  induction pre with
  | nil => simp [runChain]
  | cons m t ih =>
    have hm := hpre m (List.mem_cons_self m t)
    have ht : ∀ x ∈ t, x.beh = MiddlewareBeh.callNext :=
      fun x hx => hpre x (List.mem_cons_of_mem m hx)
    simp [runChain, hm, ih ht]

/-- Running a chain of pass-through middleware only: every middleware is
recorded once, in order, with the chain input, and the base (handler)
result is returned. -/
theorem runChain_all_callNext (mws : List Middleware) (ctx input : Value)
    (base : Except Err Value × List TraceEntry)
    (h : ∀ m ∈ mws, m.beh = MiddlewareBeh.callNext) :
    runChain mws ctx input base =
      (base.1, mws.map (fun m => TraceEntry.mw m.name input) ++ base.2) := by
  have := runChain_pre mws [] ctx input base h
  simpa [runChain] using this

/-! Claim theorems. -/

/-- Claim C1 (code bug): dispatching "p" on a router with middleware "A"
permanently mutates the stored middleware list of the matched `Procedure`
node — it is empty before the call and holds "A" after, because
`Router.call` assigns the merged list back into `target.middlewares`. -/
theorem router_call_mutates_stored_middlewares :
    procMwNamesAt c1Router "p" = some [] ∧
    procMwNamesAt (c1Router.call Value.null ["p"] Value.null).2.1 "p" = some ["A"] := by
  decide

/-- Claim C2 (code bug): issuing the same dispatch call twice against the
same router tree invokes middleware "A" once on the first call but twice
on the second, because the first call grew the procedure's stored
middleware list. -/
theorem router_call_repeated_duplicates_middleware :
    traceNames (c1Router.call Value.null ["p"] Value.null).2.2 = ["A", "handler"] ∧
    traceNames (((c1Router.call Value.null ["p"] Value.null).2.1).call
        Value.null ["p"] Value.null).2.2 = ["A", "A", "handler"] := by
  decide

/-- Claim C3 (code bug): on a fresh two-level tree the first dispatch of
"sub.p" invokes outer "A", nested "B", procedure's own "C", then the
handler, each once and in that order; but the second identical dispatch
invokes entries repeatedly and out of registration order, because the
stored lists were mutated by the first call. -/
theorem router_call_invocation_order :
    traceNames (nestedRouter.call Value.null ["sub", "p"] Value.null).2.2 =
      ["A", "B", "C", "handler"] ∧
    traceNames (((nestedRouter.call Value.null ["sub", "p"] Value.null).2.1).call
        Value.null ["sub", "p"] Value.null).2.2 =
      ["A", "A", "B", "A", "B", "C", "handler"] := by
  decide

/-- Claim C4: for an input accepted by the input schema, pass-through
middleware and a handler result accepted by the output schema,
`Procedure.call` returns the output-schema-validated handler result, and
the trace shows that every middleware and the handler received the parsed
(coerced) input, not the raw input. -/
theorem procedure_call_validated_pipeline (p : Procedure)
    (ctx input parsed hres out : Value)
    (hmw : ∀ m ∈ p.middlewares, m.beh = MiddlewareBeh.callNext)
    (hin : p.inputSchema input = Except.ok parsed)
    (hh : p.handler ctx parsed = Except.ok hres)
    (hout : p.outputSchema hres = Except.ok out) :
    (p.call ctx input).1 = Except.ok out ∧
    (p.call ctx input).2 =
      p.middlewares.map (fun m => TraceEntry.mw m.name parsed) ++
        [TraceEntry.handler parsed] := by
  have h := runChain_all_callNext p.middlewares ctx parsed
    (p.handler ctx parsed, [TraceEntry.handler parsed]) hmw
  rw [hh] at h
  simp [Procedure.call, hin, hh, h, hout]

/-- Procedure with a coercing input schema (a number is incremented by
parsing) and one pass-through middleware named "log". -/
def coerceProc : Procedure :=
  ⟨incSchema, idSchema, fun _ i => Except.ok i, [⟨"log", MiddlewareBeh.callNext⟩]⟩

/-- Witness for claim C4: calling `coerceProc` with the number 3 returns
the parsed value 4, and the middleware and the handler both received the
parsed value 4. -/
theorem procedure_call_validated_pipeline_witness :
    (coerceProc.call Value.null (Value.num 3)).1 = Except.ok (Value.num 4) ∧
    (coerceProc.call Value.null (Value.num 3)).2 =
      [TraceEntry.mw "log" (Value.num 4), TraceEntry.handler (Value.num 4)] :=
  procedure_call_validated_pipeline coerceProc Value.null (Value.num 3)
    (Value.num 4) (Value.num 4) (Value.num 4) (by decide) rfl rfl rfl

/-- Claim C7: if the effective chain is pass-through middleware followed by
a middleware that returns a value `v` without calling `next`, then the
chain stops there: the trace ends with that middleware, no entry further
inward and no handler executes, and (with `v` accepted unchanged by the
output schema) the call's result is that middleware's own return value. -/
theorem middleware_short_circuit (p : Procedure) (pre post : List Middleware)
    (nm : String) (v ctx input parsed : Value)
    (hmws : p.middlewares = pre ++ ⟨nm, MiddlewareBeh.shortCircuit v⟩ :: post)
    (hpre : ∀ m ∈ pre, m.beh = MiddlewareBeh.callNext)
    (hin : p.inputSchema input = Except.ok parsed)
    (hout : p.outputSchema v = Except.ok v) :
    (p.call ctx input).1 = Except.ok v ∧
    (p.call ctx input).2 =
      pre.map (fun m => TraceEntry.mw m.name parsed) ++ [TraceEntry.mw nm parsed] ∧
    ∀ w, TraceEntry.handler w ∉ (p.call ctx input).2 := by
  have h := runChain_pre pre (⟨nm, MiddlewareBeh.shortCircuit v⟩ :: post) ctx parsed
    (p.handler ctx parsed, [TraceEntry.handler parsed]) hpre
  simp [runChain] at h
  have hres : (p.call ctx input).1 = Except.ok v := by
    simp [Procedure.call, hin, hmws, h, hout]
  have htr : (p.call ctx input).2 =
      pre.map (fun m => TraceEntry.mw m.name parsed) ++ [TraceEntry.mw nm parsed] := by
    simp [Procedure.call, hin, hmws, h, hout]
  refine ⟨hres, htr, ?_⟩
  intro w hw
  rw [htr] at hw
  rcases List.mem_append.1 hw with h1 | h1
  · rcases List.mem_map.1 h1 with ⟨m, _, hm⟩
    exact TraceEntry.noConfusion hm
  · simp at h1

/-- Procedure whose single middleware short-circuits with the string
"cached" and whose handler would return the number 9. -/
def shortProc : Procedure :=
  ⟨idSchema, idSchema, fun _ _ => Except.ok (Value.num 9),
    [⟨"cache", MiddlewareBeh.shortCircuit (Value.str "cached")⟩]⟩

/-- Witness for claim C7: the short-circuiting middleware's value is
returned and the handler never ran. -/
theorem middleware_short_circuit_witness :
    (shortProc.call Value.null Value.null).1 = Except.ok (Value.str "cached") ∧
    (shortProc.call Value.null Value.null).2 =
      [TraceEntry.mw "cache" Value.null] :=
  ⟨(middleware_short_circuit shortProc [] [] "cache" (Value.str "cached")
      Value.null Value.null Value.null rfl (by decide) rfl rfl).1,
    (middleware_short_circuit shortProc [] [] "cache" (Value.str "cached")
      Value.null Value.null Value.null rfl (by decide) rfl rfl).2.1⟩

/-- A failure raised by a middleware before it calls `next` propagates
unchanged out of `Procedure.call` — the exact `RPCError` (code, message
and payload) is the rejection, no entry further inward runs and the
handler is never invoked. -/
theorem middleware_error_propagation (p : Procedure) (pre post : List Middleware)
    (nm : String) (e : RPCError) (ctx input parsed : Value)
    (hmws : p.middlewares = pre ++ ⟨nm, MiddlewareBeh.raiseErr e⟩ :: post)
    (hpre : ∀ m ∈ pre, m.beh = MiddlewareBeh.callNext)
    (hin : p.inputSchema input = Except.ok parsed) :
    (p.call ctx input).1 = Except.error (Err.rpc e) ∧
    (p.call ctx input).2 =
      pre.map (fun m => TraceEntry.mw m.name parsed) ++ [TraceEntry.mw nm parsed] ∧
    ∀ w, TraceEntry.handler w ∉ (p.call ctx input).2 := by
  have h := runChain_pre pre (⟨nm, MiddlewareBeh.raiseErr e⟩ :: post) ctx parsed
    (p.handler ctx parsed, [TraceEntry.handler parsed]) hpre
  simp [runChain] at h
  have hres : (p.call ctx input).1 = Except.error (Err.rpc e) := by
    simp [Procedure.call, hin, hmws, h]
  have htr : (p.call ctx input).2 =
      pre.map (fun m => TraceEntry.mw m.name parsed) ++ [TraceEntry.mw nm parsed] := by
    simp [Procedure.call, hin, hmws, h]
  refine ⟨hres, htr, ?_⟩
  intro w hw
  rw [htr] at hw
  rcases List.mem_append.1 hw with h1 | h1
  · rcases List.mem_map.1 h1 with ⟨m, _, hm⟩
    exact TraceEntry.noConfusion hm
  · simp at h1

/-- The tagged error of the authentication scenario. -/
def authErr : RPCError := ⟨401, "Authentication required", none⟩

/-- Procedure whose single middleware throws `authErr` before calling
`next`. -/
def authProc : Procedure :=
  ⟨idSchema, idSchema, fun _ i => Except.ok i,
    [⟨"auth", MiddlewareBeh.raiseErr authErr⟩]⟩

/-- The tagged error of a handler-raised domain failure, with a payload so
that its unchanged propagation is observable. -/
def forbiddenErr : RPCError := ⟨403, "Forbidden", some (Value.str "role")⟩

/-- Procedure whose handler throws `forbiddenErr`. -/
def failingHandlerProc : Procedure :=
  ⟨idSchema, idSchema, fun _ _ => Except.error (Err.rpc forbiddenErr), []⟩

/-- Procedure whose output schema rejects every handler result. -/
def badOutputProc : Procedure :=
  ⟨idSchema, fun _ => Except.error "bad output", fun _ i => Except.ok i, []⟩

/-- Claim C8: every failure raised inside a dispatch propagates unchanged
out of `Procedure.call`, with no local recovery, whichever stage raised
it: (1) an input-schema validation failure is the rejection, with nothing
executed; (2) under pass-through middleware, a failure the handler raises
(any code, message and payload) is the rejection; (3) a tagged error a
middleware raises before calling `next` is the rejection — exact code,
message and payload — and the handler is never invoked (in particular for
the tagged error with code 401 and message "Authentication required");
(4) an output-schema validation failure on the chain's result is the
rejection. -/
theorem dispatch_failure_propagation (p : Procedure) (ctx input : Value) :
    (∀ s, p.inputSchema input = Except.error s →
      (p.call ctx input).1 = Except.error (Err.validation s) ∧
      (p.call ctx input).2 = []) ∧
    (∀ parsed e, p.inputSchema input = Except.ok parsed →
      (∀ m ∈ p.middlewares, m.beh = MiddlewareBeh.callNext) →
      p.handler ctx parsed = Except.error e →
      (p.call ctx input).1 = Except.error e ∧
      (p.call ctx input).2 =
        p.middlewares.map (fun m => TraceEntry.mw m.name parsed) ++
          [TraceEntry.handler parsed]) ∧
    (∀ parsed pre post nm e, p.inputSchema input = Except.ok parsed →
      p.middlewares = pre ++ ⟨nm, MiddlewareBeh.raiseErr e⟩ :: post →
      (∀ m ∈ pre, m.beh = MiddlewareBeh.callNext) →
      (p.call ctx input).1 = Except.error (Err.rpc e) ∧
      (p.call ctx input).2 =
        pre.map (fun m => TraceEntry.mw m.name parsed) ++ [TraceEntry.mw nm parsed] ∧
      ∀ w, TraceEntry.handler w ∉ (p.call ctx input).2) ∧
    (∀ parsed v s, p.inputSchema input = Except.ok parsed →
      (∀ m ∈ p.middlewares, m.beh = MiddlewareBeh.callNext) →
      p.handler ctx parsed = Except.ok v →
      p.outputSchema v = Except.error s →
      (p.call ctx input).1 = Except.error (Err.validation s)) := by
  refine ⟨?_, ?_, ?_, ?_⟩
  · intro s hs
    simp [Procedure.call, hs]
  · intro parsed e hin hmw hh
    have h := runChain_all_callNext p.middlewares ctx parsed
      (p.handler ctx parsed, [TraceEntry.handler parsed]) hmw
    rw [hh] at h
    simp [Procedure.call, hin, hh, h]
  · intro parsed pre post nm e hin hmws hpre
    exact middleware_error_propagation p pre post nm e ctx input parsed hmws hpre hin
  · intro parsed v s hin hmw hh hs
    have h := runChain_all_callNext p.middlewares ctx parsed
      (p.handler ctx parsed, [TraceEntry.handler parsed]) hmw
    rw [hh] at h
    simp [Procedure.call, hin, hh, h, hs]

/-- Witness for claim C8, one concrete instance per failure stage: a
rejected input propagates as its validation failure with an empty trace;
a handler-thrown 403 with payload is the rejection unchanged after the
handler ran; the middleware-thrown 401 "Authentication required" is the
rejection unchanged with only that middleware in the trace; a rejected
output propagates as its validation failure. -/
theorem dispatch_failure_propagation_witness :
    ((coerceProc.call Value.null (Value.str "x")).1 =
        Except.error (Err.validation "expected a number") ∧
      (coerceProc.call Value.null (Value.str "x")).2 = []) ∧
    ((failingHandlerProc.call Value.null Value.null).1 =
        Except.error (Err.rpc ⟨403, "Forbidden", some (Value.str "role")⟩) ∧
      (failingHandlerProc.call Value.null Value.null).2 =
        [TraceEntry.handler Value.null]) ∧
    ((authProc.call Value.null Value.null).1 =
        Except.error (Err.rpc ⟨401, "Authentication required", none⟩) ∧
      (authProc.call Value.null Value.null).2 = [TraceEntry.mw "auth" Value.null]) ∧
    (badOutputProc.call Value.null Value.null).1 =
      Except.error (Err.validation "bad output") :=
  ⟨(dispatch_failure_propagation coerceProc Value.null (Value.str "x")).1
      "expected a number" rfl,
    (dispatch_failure_propagation failingHandlerProc Value.null Value.null).2.1
      Value.null (Err.rpc forbiddenErr) rfl (by decide) rfl,
    ⟨((dispatch_failure_propagation authProc Value.null Value.null).2.2.1
        Value.null [] [] "auth" authErr rfl rfl (by decide)).1,
      ((dispatch_failure_propagation authProc Value.null Value.null).2.2.1
        Value.null [] [] "auth" authErr rfl rfl (by decide)).2.1⟩,
    (dispatch_failure_propagation badOutputProc Value.null Value.null).2.2.2
      Value.null Value.null "bad output" rfl (by decide) rfl rfl⟩

/-- Formalization of the hypothesis of claim C5: walking the route mapping
along the path, the first segment considered at some traversed router
level has no entry there; the value returned is the residual path
`[first, ...rest]` at that failing level. -/
def unresolvedSuffix : List (String × Node) → List String → Option (List String)
  | _, [] => none
  | routes, f :: rest =>
    match lookupRoute routes f with
    | none => some (f :: rest)
    | some (Node.proc _) => none
    | some (Node.router _ croutes) => unresolvedSuffix croutes rest

/-- Dispatch of a path whose first segment misses at some traversed level
yields the 404 error naming the residual path at that level, with no
middleware or handler invocation, whatever the accumulated middleware
list is. -/
theorem routerCall_notFound (parts : List String) :
    ∀ (mws : List Middleware) (routes : List (String × Node))
      (ctx input : Value) (sfx : List String),
      unresolvedSuffix routes parts = some sfx →
      (routerCall mws routes ctx parts input).1 =
        Except.error (Err.rpc ⟨404, notFoundMsg sfx, none⟩) ∧
      (routerCall mws routes ctx parts input).2.2 = [] := by
  induction parts with
  | nil =>
    intro mws routes ctx input sfx h
    simp [unresolvedSuffix] at h
  | cons f rest ih =>
    intro mws routes ctx input sfx h
    cases hl : lookupRoute routes f with
    | none =>
      simp [unresolvedSuffix, hl] at h
      subst h
      simp [routerCall, hl]
    | some node =>
      cases node with
      | proc p => simp [unresolvedSuffix, hl] at h
      | router cmws croutes =>
        simp only [unresolvedSuffix, hl] at h
        have hr := ih (mws ++ cmws) croutes ctx input sfx h
        constructor
        · simpa [routerCall, hl] using hr.1
        · simpa [routerCall, hl] using hr.2

/-- Claim C5: for every dispatch path whose first segment at some
traversed router level has no entry in that level's `routes` mapping,
`Router.call` rejects with the tagged error of code 404 whose message
names the unresolved residual path, and nothing executes (the invocation
trace is empty, so in particular no procedure handler ran). -/
theorem router_call_not_found (r : Router) (ctx : Value) (parts : List String)
    (input : Value) (sfx : List String)
    (h : unresolvedSuffix r.routes parts = some sfx) :
    (r.call ctx parts input).1 =
      Except.error (Err.rpc ⟨404, notFoundMsg sfx, none⟩) ∧
    (r.call ctx parts input).2.2 = [] := by
  have hr := routerCall_notFound parts r.middlewares r.routes ctx input sfx h
  exact ⟨hr.1, hr.2⟩

/-- Router used for the C5 witness: a nested empty router under "a". -/
def c5Router : Router := ⟨[mwA], [("a", Node.router [] [])]⟩

/-- Witness for claim C5: dispatching "a.x" fails at the nested level with
the 404 error naming the residual path "x", and the trace is empty. -/
theorem router_call_not_found_witness :
    (c5Router.call Value.null ["a", "x"] Value.null).1 =
      Except.error (Err.rpc ⟨404, notFoundMsg ["x"], none⟩) ∧
    (c5Router.call Value.null ["a", "x"] Value.null).2.2 = [] :=
  router_call_not_found c5Router Value.null ["a", "x"] Value.null ["x"] (by decide)

/-- Formalization of the hypothesis of claim C6: walking the route mapping
along the path, some traversed level matches a `Procedure` while residual
segments remain; the value returned is the path `[first, ...rest]` seen at
that level (whose `rest` is the non-empty residual). -/
def residualAtProcedure : List (String × Node) → List String → Option (List String)
  | _, [] => none
  | routes, f :: rest =>
    match lookupRoute routes f with
    | none => none
    | some (Node.proc _) => if rest.isEmpty then none else some (f :: rest)
    | some (Node.router _ croutes) => residualAtProcedure croutes rest

/-- Dispatch of a path that matches a `Procedure` with residual segments
remaining yields the 400 "not callable" error naming the path at the
failing level, with no middleware or handler invocation. -/
theorem routerCall_notCallable (parts : List String) :
    ∀ (mws : List Middleware) (routes : List (String × Node))
      (ctx input : Value) (sfx : List String),
      residualAtProcedure routes parts = some sfx →
      (routerCall mws routes ctx parts input).1 =
        Except.error (Err.rpc ⟨400, notCallableMsg sfx, none⟩) ∧
      (routerCall mws routes ctx parts input).2.2 = [] := by
  induction parts with
  | nil =>
    intro mws routes ctx input sfx h
    simp [residualAtProcedure] at h
  | cons f rest ih =>
    intro mws routes ctx input sfx h
    cases hl : lookupRoute routes f with
    | none => simp [residualAtProcedure, hl] at h
    | some node =>
      cases node with
      | proc p =>
        cases rest with
        | nil => simp [residualAtProcedure, hl] at h
        | cons g t =>
          simp [residualAtProcedure, hl] at h
          subst h
          simp [routerCall, hl]
      | router cmws croutes =>
        simp only [residualAtProcedure, hl] at h
        have hr := ih (mws ++ cmws) croutes ctx input sfx h
        constructor
        · simpa [routerCall, hl] using hr.1
        · simpa [routerCall, hl] using hr.2

/-- Claim C6: for every dispatch path that resolves to a `Procedure` while
residual segments remain, `Router.call` rejects with the tagged error of
code 400 ("not callable"), and the procedure's pipeline never runs (the
invocation trace is empty: no input parsing result is consumed, no
middleware and no handler executes). -/
theorem router_call_not_callable (r : Router) (ctx : Value)
    (parts : List String) (input : Value) (sfx : List String)
    (h : residualAtProcedure r.routes parts = some sfx) :
    (r.call ctx parts input).1 =
      Except.error (Err.rpc ⟨400, notCallableMsg sfx, none⟩) ∧
    (r.call ctx parts input).2.2 = [] := by
  have hr := routerCall_notCallable parts r.middlewares r.routes ctx input sfx h
  exact ⟨hr.1, hr.2⟩

/-- Witness for claim C6: dispatching "p.extra" on a router whose "p" is a
procedure fails with the 400 "not callable" error and an empty trace. -/
theorem router_call_not_callable_witness :
    (c1Router.call Value.null ["p", "extra"] Value.null).1 =
      Except.error (Err.rpc ⟨400, notCallableMsg ["p", "extra"], none⟩) ∧
    (c1Router.call Value.null ["p", "extra"] Value.null).2.2 = [] :=
  router_call_not_callable c1Router Value.null ["p", "extra"] Value.null
    ["p", "extra"] (by decide)

/-- Counterexample for claim C9: a schema validation failure (not an
instance of the tagged error type) is serialized by the transport with
message "Internal server error", not "Internal error" as the claim
states. -/
theorem transport_internal_error_message_counterexample :
    serializeError (Err.validation "boom") =
      { code := 500, message := "Internal server error", payload := Value.null } ∧
    (serializeError (Err.validation "boom")).message ≠ "Internal error" := by
  decide

/-- Claim C9 (amended): at the transport boundary every dispatch failure
is serialized as an `{ error: { code, message, payload } }` body; an error
that is not an instance of the core's tagged error type (such as a schema
validation failure) is first mapped to the tagged error with code 500 and
message "Internal server error", while a tagged error keeps its code,
message and payload (an absent payload serialized as null). -/
theorem transport_error_serialization :
    (∀ e : Err, serializeOutcome (Except.error e) =
      RpcResponse.error (serializeError e)) ∧
    (∀ s : String, serializeError (Err.validation s) =
      { code := 500, message := "Internal server error", payload := Value.null }) ∧
    (∀ e : RPCError, serializeError (Err.rpc e) =
      { code := e.code, message := e.message, payload := e.payload.getD Value.null }) :=
  ⟨fun _ => rfl, fun _ => rfl, fun _ => rfl⟩

/-- Procedure stored under the empty-string key for the C10
counterexample; its handler returns the number 7. -/
def emptyKeyProc : Procedure :=
  ⟨idSchema, idSchema, fun _ _ => Except.ok (Value.num 7), []⟩

/-- Router whose routes mapping has an entry under the empty-string
key. -/
def emptyKeyRouter : Router := ⟨[], [("", Node.proc emptyKeyProc)]⟩

/-- Counterexample for claim C10: on a router that stores a route under
the empty-string key, calling with the empty string path does not reject
with 404 — the single empty segment matches that route, the handler runs
and the call succeeds. -/
theorem router_call_empty_path_counterexample :
    (emptyKeyRouter.callPath Value.null "" Value.null).1 =
      Except.ok (Value.num 7) ∧
    TraceEntry.handler Value.null ∈
      (emptyKeyRouter.callPath Value.null "" Value.null).2.2 :=
  ⟨rfl, by decide⟩

/-- Claim C10 (amended): for every router whose routes mapping has no
entry under the empty-string key, calling `Router.call` with the empty
string as the path rejects with the tagged error of code 404 (the empty
string splits into the single empty segment, which matches no route), and
no middleware or handler executes. -/
theorem router_call_empty_path (r : Router) (ctx input : Value)
    (h : lookupRoute r.routes "" = none) :
    (r.callPath ctx "" input).1 =
      Except.error (Err.rpc ⟨404, notFoundMsg [""], none⟩) ∧
    (r.callPath ctx "" input).2.2 = [] := by
  have hsplit : splitPath "" = [""] := by decide
  have hcall : r.callPath ctx "" input = r.call ctx [""] input := by
    unfold Router.callPath
    rw [hsplit]
  rw [hcall]
  simp [Router.call, routerCall, h]

/-- Witness for claim C10 (amended): a router without an empty-string
route, called with the empty path, rejects with the 404 error and an
empty trace. -/
theorem router_call_empty_path_witness :
    (c1Router.callPath Value.null "" Value.null).1 =
      Except.error (Err.rpc ⟨404, notFoundMsg [""], none⟩) ∧
    (c1Router.callPath Value.null "" Value.null).2.2 = [] :=
  router_call_empty_path c1Router Value.null Value.null rfl
